import Mathlib

/-!
Verification development for the `session` package: a shallow embedding of
the session manager (the per-SID locking variant), the in-memory, bolt and
MySQL storage backends, and the garbage-collection loop, together with
theorems settling the frozen claims about the specification.

Modelling conventions:
- Go `map[K]V` values are embedded as functions `K → Option V`.
- Go `time.Time` and `time.Duration` are embedded as `Int` (nanoseconds),
  matching Go's int64 representation; the MySQL statements use seconds.
- Randomness (`crypto/rand` feeding `makeID`) is an explicit oracle
  `Nat → Nat` giving the bytes that `io.ReadFull(rand.Reader, buf)` fills.
- Fallible operations return `Except`.
- Serialization (gob / JSON encoding of the value map) is embedded as the
  identity: stored records hold the value map directly.
-/

namespace SessionSpec

/-- Go `map[string]string`, the `Values` field of a session. -/
def ValMap : Type := String → Option String

/-- Go map assignment / deletion: `m[k] = v` (with `v = none` for `delete`). -/
def mapUpdate {α : Type} (m : String → Option α) (k : String) (v : Option α) :
    String → Option α :=
  fun x => if x = k then v else m x

/-- The empty Go map. -/
def emptyMap {α : Type} : String → Option α := fun _ => none

/-- One lowercase hex digit, as `fmt.Sprintf("%x", ...)` prints it:
0-9 then a-f. -/
def hexDigit (n : Nat) : Char :=
  if n % 16 < 10 then Char.ofNat (48 + n % 16) else Char.ofNat (87 + n % 16)

/-- `%x` of a single byte: two hex digits. -/
def hexByte (b : Nat) : String := String.mk [hexDigit (b % 256 / 16), hexDigit (b % 16)]

/-- `%x` of the first `n` bytes produced by the random oracle `r`. -/
def hexBytes (r : Nat → Nat) : Nat → String
  | 0 => ""
  | n + 1 => hexBytes r n ++ hexByte (r n)

/-- `makeID` from the source: reads 32 random bytes into `buf` and returns
`fmt.Sprintf("%x", buf)`, the 64-character hex encoding. -/
def makeID (r : Nat → Nat) : String := hexBytes r 32

/-- The value set of a freshly cleared session: the empty map with the
action token installed by `NewActionToken`. -/
def freshValues (r2 : Nat → Nat) : ValMap :=
  mapUpdate emptyMap "actionToken" (some (makeID r2))

/-- Errors a `SessionStorage` operation can produce: `ErrNotFound` is
distinguished from every other failure. -/
inductive StoreError where
  | notFound
  | other (msg : String)
deriving DecidableEq

/-- Session handle: the `sid` and `Values` fields of the Go `Session`
struct (the http plumbing and locks carry no session state). -/
structure Session where
  sid : String
  Values : ValMap

/-- `storedSession` from the memory store: sid, last-used time, values. -/
structure StoredSession where
  sid : String
  lastUsed : Int
  values : ValMap

/-- `MemoryStore`: the map owned by the `serve` loop, plus `maxAge`.
The channel plumbing (`commitQueue` etc.) serializes calls onto the work
functions `get`/`commit`/`delete`/`gc` embedded below. -/
structure MemoryStore where
  store : String → Option StoredSession
  maxAge : Int

/-- `time.Duration` is int64 nanoseconds. -/
def nsPerSecond : Int := 1000000000

/-- `5 * time.Minute`. -/
def fiveMinutes : Int := 5 * 60 * nsPerSecond

/-- `NewMemoryStore`: rejects `maxAge < 5*time.Minute`, otherwise returns a
store with an empty map. -/
def NewMemoryStore (maxAge : Int) : Except String MemoryStore :=
  if maxAge < fiveMinutes then .error "maxAge duration too short"
  else .ok { store := emptyMap, maxAge := maxAge }

/-- `copyValues`: builds a new map holding the same entries; in this pure
value model it is extensionally the identity (the aliasing content of
copying is modelled by the heap embedding further below). -/
def copyValues (src : ValMap) : ValMap := fun k => src k

/-- `MemoryStore.gc`: deletes every key whose `time.Since(lastUsed)`
strictly exceeds `maxAge`. -/
def MemoryStore.gc (now : Int) (s : MemoryStore) : MemoryStore :=
  { s with
    store := fun k =>
      match s.store k with
      | some rec => if now - rec.lastUsed > s.maxAge then none else some rec
      | none => none }

/-- `MemoryStore.get`: `ErrNotFound` on a missing sid, otherwise a session
whose `Values` are `copyValues` of the stored values (and whose `sid` field
is left at its zero value, exactly as in the source). -/
def MemoryStore.get (s : MemoryStore) (sid : String) : Except StoreError Session :=
  match s.store sid with
  | none => .error .notFound
  | some stored => .ok { sid := "", Values := copyValues stored.values }

/-- `MemoryStore.commit`: unconditionally stores
`{sid, time.Now(), copyValues(ses.Values)}` under `ses.sid`. -/
def MemoryStore.commit (s : MemoryStore) (ses : Session) (now : Int) : MemoryStore :=
  { s with
    store := mapUpdate s.store ses.sid
      (some { sid := ses.sid, lastUsed := now, values := copyValues ses.Values }) }

/-- `MemoryStore.delete`: removes the entry for `ses.sid`. -/
def MemoryStore.delete (s : MemoryStore) (ses : Session) : MemoryStore :=
  { s with store := mapUpdate s.store ses.sid none }

/-- The bolt database handed to `NewBoltStore`: the two buckets
("sessionsLastUsed" and "sessions"), each possibly not yet created.
Stored gob-encoded timestamps are embedded as `Int`; decode failures of
hand-corrupted bucket contents are outside the model (every timestamp the
store itself writes is a valid encoding). -/
structure BoltDB where
  lastUsedBucket : Option (String → Option Int)
  sessionsBucket : Option (String → Option ValMap)

/-- A constructed `BoltStore`: the two buckets plus `maxAge`. -/
structure BoltStore where
  lastUsed : String → Option Int
  sessions : String → Option ValMap
  maxAge : Int

/-- `NewBoltStore`: rejects `maxAge < 5*time.Minute` before touching the
database; otherwise `CreateBucketIfNotExists` for both buckets. -/
def NewBoltStore (db : BoltDB) (maxAge : Int) : Except String BoltStore × BoltDB :=
  if maxAge < fiveMinutes then (.error "maxAge duration too short", db)
  else
    let lu := db.lastUsedBucket.getD emptyMap
    let ss := db.sessionsBucket.getD emptyMap
    (.ok { lastUsed := lu, sessions := ss, maxAge := maxAge },
     { lastUsedBucket := some lu, sessionsBucket := some ss })

/-- `BoltStore.GC`: iterates the last-used bucket and deletes, from both
buckets, every key whose `time.Since(t)` strictly exceeds `maxAge`.
Keys present only in the sessions bucket are not visited. -/
def BoltStore.GC (now : Int) (s : BoltStore) : BoltStore :=
  { s with
    lastUsed := fun k =>
      match s.lastUsed k with
      | some t => if now - t > s.maxAge then none else some t
      | none => none,
    sessions := fun k =>
      match s.lastUsed k with
      | some t => if now - t > s.maxAge then none else s.sessions k
      | none => s.sessions k }

/-- `BoltStore.Commit`: unconditionally puts `time.Now()` and the
gob-encoded values under `ses.sid` in the two buckets. -/
def BoltStore.Commit (s : BoltStore) (ses : Session) (now : Int) : BoltStore :=
  { s with
    lastUsed := mapUpdate s.lastUsed ses.sid (some now),
    sessions := mapUpdate s.sessions ses.sid (some (copyValues ses.Values)) }

/-- `BoltStore.Get`: not found when the last-used entry is missing or
expired or the sessions entry is missing. -/
def BoltStore.Get (s : BoltStore) (sid : String) (now : Int) : Except StoreError Session :=
  match s.lastUsed sid with
  | none => .error .notFound
  | some t =>
    if now - t > s.maxAge then .error .notFound
    else
      match s.sessions sid with
      | none => .error .notFound
      | some v => .ok { sid := "", Values := v }

/-- `BoltStore.Delete`: removes `ses.sid` from both buckets. -/
def BoltStore.Delete (s : BoltStore) (ses : Session) : BoltStore :=
  { s with
    lastUsed := mapUpdate s.lastUsed ses.sid none,
    sessions := mapUpdate s.sessions ses.sid none }

/-- One row of the MySQL `sessions` table: `sid`, auto-updated `atime`
(seconds), and the JSON-encoded `data` column (embedded as the map). -/
structure MRow where
  sid : String
  atime : Int
  data : ValMap

/-- The MySQL database: table name to rows; `none` means the table does
not exist. -/
def MySQLDB : Type := String → Option (List MRow)

/-- A constructed `MySQLStore`: the prepared statements only capture
`int(maxAge.Seconds())`. -/
structure MySQLStore where
  maxAgeSec : Int

/-- `NewMySQLStore`: rejects an empty table name, then
`CREATE TABLE IF NOT EXISTS tablename`; the four prepared statements are
written against the literal table name `sessions` (not `tablename`) and
capture only `int(maxAge.Seconds())`. There is no validation of `maxAge`. -/
def NewMySQLStore (db : MySQLDB) (tablename : String) (maxAge : Int) :
    Except String MySQLStore × MySQLDB :=
  if tablename = "" then (.error "can not use empty table name", db)
  else
    let db2 : MySQLDB :=
      match db tablename with
      | some _ => db
      | none => mapUpdate db tablename (some [])
    (.ok { maxAgeSec := maxAge / nsPerSecond }, db2)

/-- `MySQLStore.Get`, interpreting the prepared statement
`select data from sessions where sid = ? and
subdate(now(), interval maxAge second) < atime`:
`.ok none` plays the role of `sql.ErrNoRows`, mapped to `ErrNotFound` by
the caller-facing wrapper. -/
def MySQLStore.Get (s : MySQLStore) (db : MySQLDB) (sid : String) (now : Int) :
    Except String (Option ValMap) :=
  match db "sessions" with
  | none => .error "no such table: sessions"
  | some rows =>
      .ok ((rows.find? (fun r => r.sid == sid && decide (now - s.maxAgeSec < r.atime))).map
        MRow.data)

/-- `MySQLStore.Commit`, interpreting
`replace into sessions (sid, data) VALUES (?, ?)`; guarded by
`ses.sid != ""`. -/
def MySQLStore.Commit (s : MySQLStore) (db : MySQLDB) (ses : Session) (now : Int) :
    Except String MySQLDB :=
  if ses.sid = "" then .ok db
  else
    match db "sessions" with
    | none => .error "no such table: sessions"
    | some rows =>
        .ok (mapUpdate db "sessions"
          (some (rows.filter (fun r => r.sid != ses.sid)
            ++ [{ sid := ses.sid, atime := now, data := copyValues ses.Values }])))

/-- `MySQLStore.GC`, interpreting
`delete from sessions where subdate(now(), interval maxAge second) > atime`. -/
def MySQLStore.GC (s : MySQLStore) (db : MySQLDB) (now : Int) : Except String MySQLDB :=
  match db "sessions" with
  | none => .error "no such table: sessions"
  | some rows =>
      .ok (mapUpdate db "sessions"
        (some (rows.filter (fun r => !decide (now - s.maxAgeSec > r.atime)))))

/-- `MySQLStore.Delete`, interpreting `delete from sessions where sid = ?`. -/
def MySQLStore.Delete (s : MySQLStore) (db : MySQLDB) (ses : Session) :
    Except String MySQLDB :=
  match db "sessions" with
  | none => .error "no such table: sessions"
  | some rows => .ok (mapUpdate db "sessions" (some (rows.filter (fun r => r.sid != ses.sid))))

/-- The tables after a MySQL statement: on error the database is
unchanged. -/
def dbAfter (db : MySQLDB) : Except String MySQLDB → MySQLDB
  | .ok d => d
  | .error _ => db

/-- Is an `Except` a success? -/
def isOk {ε α : Type} : Except ε α → Bool
  | .ok _ => true
  | .error _ => false

/-- The mutable configuration of a `SessionManager` relevant here:
the GC cadence and the `activeSessions` per-SID lock table (embedded as
the list of SIDs currently holding an entry; the channel values carry no
data). -/
structure SessionManagerState where
  gcDelay : Int
  activeSessions : List String

/-- `SetGCDelay`: rejects a delay below five minutes without touching
`gcDelay`. -/
def SetGCDelay (sm : SessionManagerState) (delay : Int) :
    Except String Unit × SessionManagerState :=
  if delay < fiveMinutes then (.error "maxAge duration too short", sm)
  else (.ok (), { sm with gcDelay := delay })

/-- One wake-up of the `gc` loop: either the close signal or a timer tick
whose `storage.GC()` call returned the given optional error. -/
inductive GCEvent where
  | closeSignal
  | tick (sweepError : Option String)

/-- What the loop body does with one event. -/
inductive GCOutcome where
  | stopped
  | nextTick
  | panicked (msg : String)
deriving DecidableEq

/-- The body of `SessionManager.gc`'s `for { select { ... } }`:
close stops the loop, a clean sweep loops to the next tick, and a sweep
error panics. -/
def gcLoopIteration : GCEvent → GCOutcome
  | .closeSignal => .stopped
  | .tick none => .nextTick
  | .tick (some e) => .panicked e

/-- The sweep error carried by an event, if any. -/
def gcSweepErrorOf : GCEvent → Option String
  | .closeSignal => none
  | .tick r => r

/-- The `lockSID` acquisition guard: the loop in `lockSID` can only break
out (and insert its entry) when `sid` has no live entry in
`activeSessions`. -/
def lockGuard (active : List String) (sid : String) : Bool := !(active.contains sid)

/-- Where a request is relative to its SID's critical section:
`idle` (about to call `lockSID` inside `Begin`), `inCS` (between `lockSID`
returning and `unlockSID`, i.e. the fetch/work/commit span), `done`
(after `unlockSID` ran from `Commit` or `Clear`). -/
inductive PC where
  | idle
  | inCS
  | done
deriving DecidableEq

/-- Concurrent system: each request `i` carries the SID it presents
(`sidOf i`) and a program counter, alongside the shared `activeSessions`
table. -/
structure Sys where
  sidOf : Nat → String
  pc : Nat → PC
  active : List String

/-- The state after request `i`'s `lockSID` succeeds: it enters its
critical section and `activeSessions[sid] = make(chan bool)` adds the
entry. -/
def acquireState (s : Sys) (i : Nat) : Sys :=
  { sidOf := s.sidOf, pc := Function.update s.pc i PC.inCS,
    active := s.sidOf i :: s.active }

/-- The state after request `i` runs `unlockSID` (from `Commit` or
`Clear`): it leaves its critical section and the entry is deleted. -/
def releaseState (s : Sys) (i : Nat) : Sys :=
  { sidOf := s.sidOf, pc := Function.update s.pc i PC.done,
    active := s.active.erase (s.sidOf i) }

/-- The two state changes the lock protocol performs: `acquire` is the
successful iteration of `lockSID` (only enabled when no live entry exists
for the SID — otherwise the caller stays blocked on the entry's channel),
and `release` is `unlockSID` (run by `Commit` or `Clear`), which closes
the channel and deletes the entry. -/
inductive Step : Sys → Sys → Prop where
  | acquire (s : Sys) (i : Nat) (hpc : s.pc i = PC.idle) (hact : s.sidOf i ∉ s.active) :
      Step s (acquireState s i)
  | release (s : Sys) (i : Nat) (hpc : s.pc i = PC.inCS) :
      Step s (releaseState s i)

/-- Invariant tying the lock table to the critical sections: every request
inside its critical section has a live entry for its SID, and no two
distinct requests are inside critical sections for the same SID. -/
def SysInv (s : Sys) : Prop :=
  (∀ i, s.pc i = PC.inCS → s.sidOf i ∈ s.active)
  ∧ ∀ i j, s.pc i = PC.inCS → s.pc j = PC.inCS → s.sidOf i = s.sidOf j → i = j

/-- Output of `Begin` specialized to a `MemoryStore` backend. -/
structure BeginOut where
  result : Except String Session
  store : MemoryStore
  active : List String
  cookies : List String

/-- Output of `Session.Clear`. -/
structure ClearOut where
  session : Session
  store : MemoryStore
  active : List String
  cookies : List String

/-- `Session.Clear` over the `MemoryStore` backend: delete the current
record, release the per-SID lock entry, mint a fresh SID (`makeID r1`),
reset the values to an empty map, rewrite the cookie with the new SID, and
`NewActionToken` (`Set("actionToken", makeID r2)`). -/
def clearMem (ms : MemoryStore) (active : List String) (ses : Session)
    (r1 r2 : Nat → Nat) : ClearOut :=
  let ms2 := MemoryStore.delete ms ses
  let active2 := active.erase ses.sid
  let newSid := makeID r1
  let vals := mapUpdate emptyMap "actionToken" (some (makeID r2))
  { session := { sid := newSid, Values := vals },
    store := ms2, active := active2, cookies := [newSid] }

/-- `SessionManager.Begin` over the `MemoryStore` backend, as the state
transformation it performs once any `lockSID` call in it has been granted
(the blocking of `lockSID` itself is the `Step` relation above).
`cookie` is the result of `req.Cookie`: `none` when the request carries no
cookie of that name. `cookies` lists the `Set-Cookie` values written. -/
def BeginMem (ms : MemoryStore) (active : List String) (cookie : Option String)
    (r1 r2 : Nat → Nat) : BeginOut :=
  match cookie with
  | some v =>
    if v = "" then
      -- empty cookie: no lock, no fetch; `s.Values == nil` forces `Clear`
      let c := clearMem ms active { sid := "", Values := emptyMap } r1 r2
      { result := .ok c.session, store := c.store, active := c.active, cookies := c.cookies }
    else
      -- `s.sid = v; sm.lockSID(s.sid); sm.storage.Get(s.sid)`
      let active1 := v :: active
      match MemoryStore.get ms v with
      | .error .notFound =>
          -- `stored == nil`, so `s.Values == nil` forces `Clear`
          let c := clearMem ms active1 { sid := v, Values := emptyMap } r1 r2
          { result := .ok c.session, store := c.store, active := c.active,
            cookies := c.cookies }
      | .error (.other e) =>
          -- `return nil, err` — note: no `unlockSID`
          { result := .error e, store := ms, active := active1, cookies := [] }
      | .ok stored =>
          -- resume: `s.Values = stored.Values`, then `s.setCookie()`
          { result := .ok { sid := v, Values := stored.Values }, store := ms,
            active := active1, cookies := [v] }
  | none =>
      let c := clearMem ms active { sid := "", Values := emptyMap } r1 r2
      { result := .ok c.session, store := c.store, active := c.active, cookies := c.cookies }

/-- `Session.Commit` over the `MemoryStore` backend: when `sid` is
non-empty, commit to storage and `unlockSID`; when `sid` is empty, do
nothing and return success. -/
def sessionCommitMem (ms : MemoryStore) (active : List String) (ses : Session)
    (now : Int) : MemoryStore × List String × Except String Unit :=
  if ses.sid = "" then (ms, active, .ok ())
  else (MemoryStore.commit ms ses now, active.erase ses.sid, .ok ())

/-- Result of `storage.Get` as seen by `Begin`, for an arbitrary backend. -/
inductive GetResult where
  | found (stored : Session)
  | notFound
  | fail (msg : String)

/-- Output of the cookie-bearing path of `Begin` over an abstract backend
with state type `σ`. -/
structure BeginAbsOut (σ : Type) where
  result : Except String Session
  store : σ
  active : List String
  cookies : List String

/-- The cookie-bearing path of `SessionManager.Begin` over an abstract
backend: `del` is the backend's `Delete` (used by `Clear`), `fetch` the
result of `storage.Get(sid)`. The path runs after `lockSID(sid)` has been
granted, so it begins by inserting the lock-table entry. On a fetch error
other than `ErrNotFound` it returns the error without `unlockSID`. -/
def beginAbs {σ : Type} (del : σ → String → σ) (st : σ) (active : List String)
    (sid : String) (fetch : GetResult) (r1 r2 : Nat → Nat) : BeginAbsOut σ :=
  let active1 := sid :: active
  match fetch with
  | .fail e => { result := .error e, store := st, active := active1, cookies := [] }
  | .notFound =>
      -- `s.Values == nil` forces `Clear`: delete, unlock, fresh SID, token
      let st2 := del st sid
      let active2 := active1.erase sid
      let vals := mapUpdate emptyMap "actionToken" (some (makeID r2))
      { result := .ok { sid := makeID r1, Values := vals }, store := st2,
        active := active2, cookies := [makeID r1] }
  | .found stored =>
      { result := .ok { sid := sid, Values := stored.Values }, store := st,
        active := active1, cookies := [sid] }

/-- The values of the session a `Begin` produced (the empty map when
`Begin` failed). -/
def beginResultValues (out : BeginOut) : ValMap :=
  match out.result with
  | .ok s => s.Values
  | .error _ => emptyMap

/-- A heap of value maps, for stating the aliasing content of
`copyValues`: addresses below `next` are allocated, `alloc` returns a
fresh address. -/
structure Heap where
  next : Nat
  mem : Nat → Option ValMap

/-- `make(map[string]string, ...)`: allocate a fresh map object. -/
def Heap.alloc (h : Heap) (m : ValMap) : Heap × Nat :=
  ({ next := h.next + 1, mem := fun a => if a = h.next then some m else h.mem a }, h.next)

/-- `ses.Values[k] = v` through the handle's reference: mutates the map
object at address `a` in place. -/
def Heap.write (h : Heap) (a : Nat) (k v : String) : Heap :=
  { h with
    mem := fun b =>
      if b = a then (h.mem b).map (fun m => mapUpdate m k (some v)) else h.mem b }

/-- The memory store with by-reference values: each stored session holds
the address of its values map and its last-used time. -/
structure MemoryStoreH where
  store : String → Option (Nat × Int)

/-- `copyValues` in the heap model: reads the source map and allocates a
new map object holding the same entries. -/
def copyValuesH (h : Heap) (src : Nat) : Heap × Nat :=
  match h.mem src with
  | some m => h.alloc (fun k => m k)
  | none => h.alloc emptyMap

/-- `MemoryStore.get` in the heap model: returns (the address of) a fresh
copy of the stored values. -/
def MemoryStoreH.get (h : Heap) (s : MemoryStoreH) (sid : String) :
    Except StoreError (Heap × Nat) :=
  match s.store sid with
  | none => .error .notFound
  | some (a, _) => .ok (copyValuesH h a)

/- Concrete instances used to evaluate the theorems. -/

/-- A random oracle producing only zero bytes. -/
def zeroSeed : Nat → Nat := fun _ => 0

/-- The SID `makeID` produces from the all-zero oracle (64 zeros). -/
def zeroId : String := makeID zeroSeed

/-- An empty memory store with a one-hour max age. -/
def memEmptyStore : MemoryStore := { store := emptyMap, maxAge := 3600 * nsPerSecond }

/-- An empty MySQL database (no tables). -/
def mysqlDBEmpty : MySQLDB := fun _ => none

/-- A bolt database whose buckets have not been created yet. -/
def boltDBEmpty : BoltDB := { lastUsedBucket := none, sessionsBucket := none }

/-- A manager state with the default one-hour GC delay and no live locks. -/
def smState0 : SessionManagerState := { gcDelay := 3600 * nsPerSecond, activeSessions := [] }

/-- A bolt store holding one record, last used at time 0, max age 5. -/
def cBolt : BoltStore :=
  { lastUsed := fun k => if k = "a" then some 0 else none,
    sessions := fun k => if k = "a" then some emptyMap else none,
    maxAge := 5 }

/-- A one-object heap: address 0 holds an empty value map. -/
def cHeap : Heap := { next := 1, mem := fun a => if a = 0 then some emptyMap else none }

/-- A heap-model store mapping SID "x" to the map at address 0. -/
def cStoreH : MemoryStoreH := { store := fun sid => if sid = "x" then some (0, 0) else none }

/-- A system of requests all presenting SID "s", none started. -/
def sys0 : Sys := { sidOf := fun _ => "s", pc := fun _ => PC.idle, active := [] }

/- Helper lemmas. -/

theorem hexByte_length (b : Nat) : (hexByte b).length = 2 := rfl

theorem hexBytes_length (r : Nat → Nat) (n : Nat) : (hexBytes r n).length = 2 * n := by
  induction n with
  | zero => rfl
  | succ n ih =>
      simp only [hexBytes, String.length_append, ih, hexByte_length]
      omega

theorem makeID_length (r : Nat → Nat) : (makeID r).length = 64 := by
  simp [makeID, hexBytes_length]

theorem makeID_ne_empty (r : Nat → Nat) : makeID r ≠ "" := by
  intro h
  have hl := makeID_length r
  rw [h] at hl
  simp at hl

/-- A `Step` preserves the lock-table invariant. -/
theorem sysStep_preserves (s t : Sys) (hst : Step s t) (hinv : SysInv s) : SysInv t := by
  obtain ⟨h1, h2⟩ := hinv
  cases hst with
  | acquire i hpc hact =>
      refine ⟨fun j hj => ?_, fun j k hj hk hsid => ?_⟩
      · simp only [acquireState] at hj ⊢
        by_cases hji : j = i
        · subst hji
          simp
        · rw [Function.update_noteq hji] at hj
          exact List.mem_cons_of_mem _ (h1 j hj)
      · simp only [acquireState] at hj hk hsid ⊢
        by_cases hji : j = i
        · by_cases hki : k = i
          · rw [hji, hki]
          · rw [Function.update_noteq hki] at hk
            rw [hji] at hsid
            rw [hsid] at hact
            exact absurd (h1 k hk) hact
        · by_cases hki : k = i
          · rw [Function.update_noteq hji] at hj
            rw [hki] at hsid
            rw [← hsid] at hact
            exact absurd (h1 j hj) hact
          · rw [Function.update_noteq hji] at hj
            rw [Function.update_noteq hki] at hk
            exact h2 j k hj hk hsid
  | release i hpc =>
      refine ⟨fun j hj => ?_, fun j k hj hk hsid => ?_⟩
      · simp only [releaseState] at hj ⊢
        by_cases hji : j = i
        · subst hji
          rw [Function.update_same] at hj
          simp at hj
        · rw [Function.update_noteq hji] at hj
          have hne : s.sidOf j ≠ s.sidOf i := fun he => hji (h2 j i hj hpc he)
          exact (List.mem_erase_of_ne hne).2 (h1 j hj)
      · simp only [releaseState] at hj hk hsid ⊢
        by_cases hji : j = i
        · subst hji
          rw [Function.update_same] at hj
          simp at hj
        · by_cases hki : k = i
          · subst hki
            rw [Function.update_same] at hk
            simp at hk
          · rw [Function.update_noteq hji] at hj
            rw [Function.update_noteq hki] at hk
            exact h2 j k hj hk hsid

/-- The lock-table invariant holds in every state reachable from an
initial state (empty lock table, all requests idle). -/
theorem sysInv_reachable (init s : Sys) (h1 : ∀ i, init.pc i = PC.idle)
    (hr : Relation.ReflTransGen Step init s) : SysInv s := by
  induction hr with
  | refl =>
      constructor
      · intro i hi
        rw [h1 i] at hi
        exact absurd hi (by simp)
      · intro i j hi _ _
        rw [h1 i] at hi
        exact absurd hi (by simp)
  | tail hab hbc ih => exact sysStep_preserves _ _ hbc ih

/-- A request whose SID has a live lock entry cannot enter its critical
section in one step: the `acquire` guard is false for it. -/
theorem sysStep_blocked (s t : Sys) (i : Nat) (hi : s.pc i ≠ PC.inCS)
    (hact : s.sidOf i ∈ s.active) (hst : Step s t) : t.pc i ≠ PC.inCS := by
  cases hst with
  | acquire j hpc hjact =>
      intro hcon
      simp only [acquireState] at hcon
      by_cases hij : i = j
      · rw [hij] at hact
        exact absurd hact hjact
      · rw [Function.update_noteq hij] at hcon
        exact hi hcon
  | release j hpc =>
      intro hcon
      simp only [releaseState] at hcon
      by_cases hij : i = j
      · rw [hij, Function.update_same] at hcon
        simp at hcon
      · rw [Function.update_noteq hij] at hcon
        exact hi hcon

/- Claim theorems. -/

/-- C1: the manager's mutual-exclusion table holds at most one live entry
per SID: in every state reachable from an initial state, two distinct
requests presenting the same SID are never both inside their critical
sections (between `lockSID` returning and the `unlockSID` run by `Commit`
or `Clear`), and while a SID holds a live entry no other request
presenting it can enter its critical section in any step — it stays
blocked in `lockSID`. Hence two concurrent `Begin` calls for the same SID
never interleave their fetch/commit against the backend. -/
theorem begin_mutual_exclusion (init s : Sys) (h0 : init.active = [])
    (h1 : ∀ i, init.pc i = PC.idle) (hr : Relation.ReflTransGen Step init s) :
    (∀ i j, s.pc i = PC.inCS → s.pc j = PC.inCS → s.sidOf i = s.sidOf j → i = j)
    ∧ ∀ i t, s.pc i ≠ PC.inCS → s.sidOf i ∈ s.active → Step s t → t.pc i ≠ PC.inCS :=
  ⟨(sysInv_reachable init s h1 hr).2,
   fun i t hi ha hst => sysStep_blocked s t i hi ha hst⟩

/-- Witness for C1 at the concrete initial system `sys0`. -/
theorem begin_mutual_exclusion_witness :
    sys0.active = [] ∧ (∀ i, sys0.pc i = PC.idle)
    ∧ ((∀ i j, sys0.pc i = PC.inCS → sys0.pc j = PC.inCS → sys0.sidOf i = sys0.sidOf j → i = j)
       ∧ ∀ i t, sys0.pc i ≠ PC.inCS → sys0.sidOf i ∈ sys0.active → Step sys0 t →
           t.pc i ≠ PC.inCS) :=
  ⟨rfl, fun _ => rfl,
   begin_mutual_exclusion sys0 sys0 rfl (fun _ => rfl) Relation.ReflTransGen.refl⟩

/-- C2 counterexample: for a request with no cookie, `Begin`'s session does
not have an empty value set — `Clear` ends with `NewActionToken`, which
stores a token under the reserved key "actionToken". -/
theorem begin_no_cookie_values_not_empty :
    beginResultValues (BeginMem memEmptyStore [] none zeroSeed zeroSeed) "actionToken"
      ≠ none := by
  simp [BeginMem, clearMem, beginResultValues, mapUpdate]

/-- C2 (amended): for every request carrying no session cookie or an empty
one, `Begin` returns a session whose SID is the freshly generated
64-hex-character (hence non-empty) `makeID`, writes exactly one cookie
carrying that SID, and whose value set is empty except for the reserved
"actionToken" entry that `Clear` installs via `NewActionToken`. -/
theorem begin_no_cookie_spec (ms : MemoryStore) (active : List String)
    (cookie : Option String) (r1 r2 : Nat → Nat)
    (hc : cookie = none ∨ cookie = some "") :
    (BeginMem ms active cookie r1 r2).result
      = .ok { sid := makeID r1, Values := freshValues r2 }
    ∧ makeID r1 ≠ ""
    ∧ (BeginMem ms active cookie r1 r2).cookies = [makeID r1]
    ∧ freshValues r2 "actionToken" = some (makeID r2)
    ∧ ∀ k, k ≠ "actionToken" → freshValues r2 k = none := by
  rcases hc with h | h <;> subst h <;>
    exact ⟨rfl, makeID_ne_empty r1, rfl, by simp [freshValues, mapUpdate],
      fun k hk => by simp [freshValues, mapUpdate, emptyMap, hk]⟩

/-- Witness for C2 at a concrete cookieless request. -/
theorem begin_no_cookie_spec_witness :
    ((none : Option String) = none ∨ (none : Option String) = some "")
    ∧ ((BeginMem memEmptyStore [] none zeroSeed zeroSeed).result
        = .ok { sid := makeID zeroSeed, Values := freshValues zeroSeed }
       ∧ makeID zeroSeed ≠ ""
       ∧ (BeginMem memEmptyStore [] none zeroSeed zeroSeed).cookies = [makeID zeroSeed]
       ∧ freshValues zeroSeed "actionToken" = some (makeID zeroSeed)
       ∧ ∀ k, k ≠ "actionToken" → freshValues zeroSeed k = none) :=
  ⟨Or.inl rfl, begin_no_cookie_spec memEmptyStore [] none zeroSeed zeroSeed (Or.inl rfl)⟩

/-- C3 counterexample: the in-memory backend's `commit` has no empty-sid
guard — committing a session whose sid is the empty string creates a
record under the key "" where none existed, so the backend state changes. -/
theorem memory_commit_empty_sid_changes_state :
    memEmptyStore.store "" = none
    ∧ ((MemoryStore.commit memEmptyStore { sid := "", Values := emptyMap } 0).store "").isSome
        = true :=
  ⟨rfl, rfl⟩

/-- C3 (amended): commit on an empty sid is a no-op returning success for
the MySQL backend and at the session-handle level (`Session.Commit` skips
the backend entirely when `sid` is empty), but the in-memory and bolt
backends' commits are unconditional: they store a record under the
empty-string key. -/
theorem commit_empty_sid_behavior (s : MySQLStore) (db : MySQLDB) (vals : ValMap)
    (now : Int) (ms : MemoryStore) (active : List String) (bs : BoltStore) :
    MySQLStore.Commit s db { sid := "", Values := vals } now = .ok db
    ∧ sessionCommitMem ms active { sid := "", Values := vals } now = (ms, active, .ok ())
    ∧ ((MemoryStore.commit ms { sid := "", Values := vals } now).store "").isSome = true
    ∧ ((BoltStore.Commit bs { sid := "", Values := vals } now).lastUsed "").isSome = true := by
  refine ⟨rfl, rfl, ?_, ?_⟩ <;> simp [MemoryStore.commit, BoltStore.Commit, mapUpdate]

/-- C4 counterexample: `NewMySQLStore` performs no validation of the
maximum age — constructing the MySQL backend with a duration of one
nanosecond (far below five minutes) succeeds instead of returning a
validation error. -/
theorem mysql_no_maxage_validation :
    (1 : Int) < fiveMinutes ∧ isOk (NewMySQLStore mysqlDBEmpty "t" 1).1 = true :=
  ⟨by decide, rfl⟩

/-- C4 (amended): the in-memory and bolt constructors and `SetGCDelay`
reject every duration strictly below five minutes with a validation error
and no side effects (the bolt database and the manager state are returned
unchanged); the MySQL constructor, however, performs no such validation. -/
theorem short_duration_rejected (d : Int) (hd : d < fiveMinutes) (db : BoltDB)
    (sm : SessionManagerState) :
    NewMemoryStore d = .error "maxAge duration too short"
    ∧ NewBoltStore db d = (.error "maxAge duration too short", db)
    ∧ SetGCDelay sm d = (.error "maxAge duration too short", sm) := by
  refine ⟨?_, ?_, ?_⟩ <;> simp [NewMemoryStore, NewBoltStore, SetGCDelay, hd]

/-- Witness for C4 at the concrete duration of one nanosecond. -/
theorem short_duration_rejected_witness :
    (1 : Int) < fiveMinutes
    ∧ (NewMemoryStore 1 = .error "maxAge duration too short"
       ∧ NewBoltStore boltDBEmpty 1 = (.error "maxAge duration too short", boltDBEmpty)
       ∧ SetGCDelay smState0 1 = (.error "maxAge duration too short", smState0)) :=
  ⟨by decide, short_duration_rejected 1 (by decide) boltDBEmpty smState0⟩

/-- C5: in the heap model, `get` on a present SID returns a session whose
value map is a fresh copy of the stored map (same entries, different
address), so any later write through the returned handle leaves the
backend's stored map object for that SID unchanged. -/
theorem memory_get_returns_copy (h : Heap) (s : MemoryStoreH) (sid : String)
    (a : Nat) (lu : Int) (m : ValMap) (ha : a < h.next)
    (hf : s.store sid = some (a, lu)) (hm : h.mem a = some m) :
    MemoryStoreH.get h s sid = .ok (copyValuesH h a)
    ∧ (copyValuesH h a).1.mem (copyValuesH h a).2 = some m
    ∧ ∀ k v, (Heap.write (copyValuesH h a).1 (copyValuesH h a).2 k v).mem a = some m := by
  have hane : a ≠ h.next := Nat.ne_of_lt ha
  refine ⟨?_, ?_, ?_⟩
  · simp [MemoryStoreH.get, hf]
  · simp [copyValuesH, hm, Heap.alloc]
  · intro k v
    simp [copyValuesH, hm, Heap.alloc, Heap.write, hane]

/-- Witness for C5 at a one-record heap store. -/
theorem memory_get_returns_copy_witness :
    ((0 : Nat) < cHeap.next ∧ cStoreH.store "x" = some (0, 0)
      ∧ cHeap.mem 0 = some emptyMap)
    ∧ (MemoryStoreH.get cHeap cStoreH "x" = .ok (copyValuesH cHeap 0)
       ∧ (copyValuesH cHeap 0).1.mem (copyValuesH cHeap 0).2 = some emptyMap
       ∧ ∀ k v, (Heap.write (copyValuesH cHeap 0).1 (copyValuesH cHeap 0).2 k v).mem 0
           = some emptyMap) :=
  ⟨⟨by decide, rfl, rfl⟩,
   memory_get_returns_copy cHeap cStoreH "x" 0 0 emptyMap (by decide) rfl rfl⟩

/-- C6: one sweep removes a record exactly when its age since last use
strictly exceeds the configured maximum age — for the in-memory store a
record survives `gc` iff it was stored and `now - lastUsed ≤ maxAge`, for
the bolt store the last-used entry survives `GC` iff it was present and
within the maximum age, and an expired bolt record is removed from both
buckets. -/
theorem gc_removes_iff_expired (now : Int) (ms : MemoryStore) (bs : BoltStore)
    (sid : String) :
    (∀ rec : StoredSession, (MemoryStore.gc now ms).store sid = some rec
        ↔ ms.store sid = some rec ∧ now - rec.lastUsed ≤ ms.maxAge)
    ∧ (∀ t : Int, (BoltStore.GC now bs).lastUsed sid = some t
        ↔ bs.lastUsed sid = some t ∧ now - t ≤ bs.maxAge)
    ∧ ∀ t : Int, bs.lastUsed sid = some t → now - t > bs.maxAge →
        (BoltStore.GC now bs).lastUsed sid = none
        ∧ (BoltStore.GC now bs).sessions sid = none := by
  refine ⟨fun rec => ?_, fun t => ?_, fun t ht hexp => ?_⟩
  · cases hcase : ms.store sid with
    | none => simp [MemoryStore.gc, hcase]
    | some r =>
        simp only [MemoryStore.gc, hcase]
        by_cases hx : now - r.lastUsed > ms.maxAge
        · rw [if_pos hx]
          constructor
          · intro hcon
            exact Option.noConfusion hcon
          · rintro ⟨he, hle⟩
            injection he with he2
            subst he2
            exact absurd hle (by omega)
        · rw [if_neg hx]
          constructor
          · intro he
            refine ⟨he, ?_⟩
            injection he with he2
            subst he2
            omega
          · rintro ⟨he, _⟩
            exact he
  · cases hcase : bs.lastUsed sid with
    | none => simp [BoltStore.GC, hcase]
    | some u =>
        simp only [BoltStore.GC, hcase]
        by_cases hx : now - u > bs.maxAge
        · rw [if_pos hx]
          constructor
          · intro hcon
            exact Option.noConfusion hcon
          · rintro ⟨he, hle⟩
            injection he with he2
            subst he2
            exact absurd hle (by omega)
        · rw [if_neg hx]
          constructor
          · intro he
            refine ⟨he, ?_⟩
            injection he with he2
            subst he2
            omega
          · rintro ⟨he, _⟩
            exact he
  · constructor <;> simp [BoltStore.GC, ht, hexp]

/-- Witness for C6: an expired bolt record is swept from both buckets. -/
theorem gc_removes_iff_expired_witness :
    cBolt.lastUsed "a" = some 0 ∧ (10 : Int) - 0 > cBolt.maxAge
    ∧ ((BoltStore.GC 10 cBolt).lastUsed "a" = none
       ∧ (BoltStore.GC 10 cBolt).sessions "a" = none) :=
  ⟨rfl, by decide,
   (gc_removes_iff_expired 10 memEmptyStore cBolt "a").2.2 0 rfl (by decide)⟩

/-- C7 counterexample: `Clear` mints the new SID as raw `makeID`
randomness with no comparison against the old SID — when the 32 fresh
random bytes hex-encode exactly to the SID held before the call, the
"new" SID equals the old one. -/
theorem clear_can_return_same_sid :
    (clearMem memEmptyStore [] { sid := zeroId, Values := emptyMap }
        zeroSeed zeroSeed).session.sid = zeroId := rfl

/-- C7 (amended): `Clear` always deletes the old record — a subsequent
backend fetch of the old SID returns `NotFound` — and sets the session's
SID to the freshly generated `makeID`, which differs from the old SID
whenever the fresh random bytes do not hex-encode exactly to it. -/
theorem clear_spec (ms : MemoryStore) (active : List String) (ses : Session)
    (r1 r2 : Nat → Nat) (hne : makeID r1 ≠ ses.sid) :
    (clearMem ms active ses r1 r2).session.sid ≠ ses.sid
    ∧ MemoryStore.get (clearMem ms active ses r1 r2).store ses.sid = .error .notFound
    ∧ (clearMem ms active ses r1 r2).session.sid = makeID r1 := by
  refine ⟨hne, ?_, rfl⟩
  simp [clearMem, MemoryStore.delete, MemoryStore.get, mapUpdate]

/-- Witness for C7 at a concrete session. -/
theorem clear_spec_witness :
    makeID zeroSeed ≠ "abc"
    ∧ ((clearMem memEmptyStore [] { sid := "abc", Values := emptyMap }
          zeroSeed zeroSeed).session.sid ≠ "abc"
       ∧ MemoryStore.get (clearMem memEmptyStore [] { sid := "abc", Values := emptyMap }
            zeroSeed zeroSeed).store "abc" = .error .notFound
       ∧ (clearMem memEmptyStore [] { sid := "abc", Values := emptyMap }
            zeroSeed zeroSeed).session.sid = makeID zeroSeed) :=
  ⟨by decide,
   clear_spec memEmptyStore [] { sid := "abc", Values := emptyMap } zeroSeed zeroSeed
     (by decide)⟩

/-- C8: the GC loop treats a sweep error as fatal: a tick whose
`storage.GC()` call errored panics the loop, and the loop only ever
continues to a next tick on an event carrying no sweep error. -/
theorem gc_sweep_error_fatal (e : String) :
    gcLoopIteration (.tick (some e)) = .panicked e
    ∧ gcLoopIteration (.tick (some e)) ≠ .nextTick
    ∧ ∀ ev, gcLoopIteration ev = .nextTick → gcSweepErrorOf ev = none := by
  refine ⟨rfl, by simp [gcLoopIteration], fun ev hev => ?_⟩
  cases ev with
  | closeSignal => rfl
  | tick r =>
      cases r with
      | none => rfl
      | some msg => exact absurd hev (by simp [gcLoopIteration])

/-- Witness for C8 at a concrete sweep error. -/
theorem gc_sweep_error_fatal_witness :
    gcLoopIteration (.tick (some "disk failure")) = .panicked "disk failure"
    ∧ gcSweepErrorOf (.tick none) = none :=
  ⟨(gc_sweep_error_fatal "disk failure").1,
   (gc_sweep_error_fatal "disk failure").2.2 (.tick none) rfl⟩

/-- C9: `NewMySQLStore` creates the supplied table if absent (leaving all
other tables alone), yet the prepared fetch, commit, sweep and delete
statements operate on the fixed table `sessions`: fetch depends only on
the `sessions` table, and commit, sweep and delete leave every table other
than `sessions` unchanged, with commit writing its row into `sessions`. -/
theorem mysql_operates_on_fixed_table (db : MySQLDB) (t : String) (maxAge : Int)
    (ht : t ≠ "") :
    isOk (NewMySQLStore db t maxAge).1 = true
    ∧ ((NewMySQLStore db t maxAge).2 t).isSome = true
    ∧ (∀ u, u ≠ t → (NewMySQLStore db t maxAge).2 u = db u)
    ∧ (∀ (s : MySQLStore) (db2 db3 : MySQLDB) (sid : String) (now : Int),
        db2 "sessions" = db3 "sessions" →
        MySQLStore.Get s db2 sid now = MySQLStore.Get s db3 sid now)
    ∧ (∀ (s : MySQLStore) (db2 : MySQLDB) (ses : Session) (now : Int) (u : String),
        u ≠ "sessions" → dbAfter db2 (MySQLStore.Commit s db2 ses now) u = db2 u)
    ∧ (∀ (s : MySQLStore) (db2 : MySQLDB) (ses : Session) (now : Int) (rows : List MRow),
        ses.sid ≠ "" → db2 "sessions" = some rows →
        MySQLStore.Commit s db2 ses now
          = .ok (mapUpdate db2 "sessions"
              (some (rows.filter (fun r => r.sid != ses.sid)
                ++ [{ sid := ses.sid, atime := now, data := copyValues ses.Values }]))))
    ∧ (∀ (s : MySQLStore) (db2 : MySQLDB) (now : Int) (u : String),
        u ≠ "sessions" → dbAfter db2 (MySQLStore.GC s db2 now) u = db2 u)
    ∧ (∀ (s : MySQLStore) (db2 : MySQLDB) (ses : Session) (u : String),
        u ≠ "sessions" → dbAfter db2 (MySQLStore.Delete s db2 ses) u = db2 u) := by
  refine ⟨?_, ?_, ?_, ?_, ?_, ?_, ?_, ?_⟩
  · simp [NewMySQLStore, ht, isOk]
  · cases hdt : db t <;> simp [NewMySQLStore, ht, hdt, mapUpdate]
  · intro u hu
    cases hdt : db t <;> simp [NewMySQLStore, ht, hdt, mapUpdate, hu]
  · intro s db2 db3 sid now hdb
    simp [MySQLStore.Get, hdb]
  · intro s db2 ses now u hu
    by_cases hsid : ses.sid = ""
    · simp [MySQLStore.Commit, hsid, dbAfter]
    · cases hrows : db2 "sessions" with
      | none => simp [MySQLStore.Commit, hsid, hrows, dbAfter]
      | some rows => simp [MySQLStore.Commit, hsid, hrows, dbAfter, mapUpdate, hu]
  · intro s db2 ses now rows hsid hrows
    simp [MySQLStore.Commit, hsid, hrows]
  · intro s db2 now u hu
    cases hrows : db2 "sessions" with
    | none => simp [MySQLStore.GC, hrows, dbAfter]
    | some rows => simp [MySQLStore.GC, hrows, dbAfter, mapUpdate, hu]
  · intro s db2 ses u hu
    cases hrows : db2 "sessions" with
    | none => simp [MySQLStore.Delete, hrows, dbAfter]
    | some rows => simp [MySQLStore.Delete, hrows, dbAfter, mapUpdate, hu]

/-- Witness for C9 at a concrete empty database and table name "t". -/
theorem mysql_operates_on_fixed_table_witness :
    ("t" : String) ≠ ""
    ∧ (isOk (NewMySQLStore mysqlDBEmpty "t" 0).1 = true
       ∧ ((NewMySQLStore mysqlDBEmpty "t" 0).2 "t").isSome = true
       ∧ (∀ u, u ≠ "t" → (NewMySQLStore mysqlDBEmpty "t" 0).2 u = mysqlDBEmpty u)
       ∧ (∀ (s : MySQLStore) (db2 db3 : MySQLDB) (sid : String) (now : Int),
           db2 "sessions" = db3 "sessions" →
           MySQLStore.Get s db2 sid now = MySQLStore.Get s db3 sid now)
       ∧ (∀ (s : MySQLStore) (db2 : MySQLDB) (ses : Session) (now : Int) (u : String),
           u ≠ "sessions" → dbAfter db2 (MySQLStore.Commit s db2 ses now) u = db2 u)
       ∧ (∀ (s : MySQLStore) (db2 : MySQLDB) (ses : Session) (now : Int) (rows : List MRow),
           ses.sid ≠ "" → db2 "sessions" = some rows →
           MySQLStore.Commit s db2 ses now
             = .ok (mapUpdate db2 "sessions"
                 (some (rows.filter (fun r => r.sid != ses.sid)
                   ++ [{ sid := ses.sid, atime := now, data := copyValues ses.Values }]))))
       ∧ (∀ (s : MySQLStore) (db2 : MySQLDB) (now : Int) (u : String),
           u ≠ "sessions" → dbAfter db2 (MySQLStore.GC s db2 now) u = db2 u)
       ∧ (∀ (s : MySQLStore) (db2 : MySQLDB) (ses : Session) (u : String),
           u ≠ "sessions" → dbAfter db2 (MySQLStore.Delete s db2 ses) u = db2 u)) :=
  ⟨by decide, mysql_operates_on_fixed_table mysqlDBEmpty "t" 0 (by decide)⟩

/-- C10: in the locking manager, when `Begin` has acquired the per-SID
lock and the backend fetch fails with an error other than `ErrNotFound`,
`Begin` returns that error without calling `unlockSID` — the lock-table
entry for the SID stays live, and while an entry is live the `lockSID`
acquisition guard is false, so every later `Begin` presenting that SID
stays blocked. -/
theorem begin_fetch_error_leaks_lock {σ : Type} (del : σ → String → σ) (st : σ)
    (active : List String) (sid : String) (e : String) (r1 r2 : Nat → Nat)
    (hsid : sid ≠ "") :
    (beginAbs del st active sid (.fail e) r1 r2).result = .error e
    ∧ sid ∈ (beginAbs del st active sid (.fail e) r1 r2).active
    ∧ ∀ act : List String, sid ∈ act → lockGuard act sid = false := by
  refine ⟨rfl, ?_, fun act hmem => ?_⟩
  · simp [beginAbs]
  · simp [lockGuard, hmem]

/-- Witness for C10 at a concrete failed fetch. -/
theorem begin_fetch_error_leaks_lock_witness :
    ("x" : String) ≠ ""
    ∧ ((beginAbs (fun (n : Nat) _ => n) 0 [] "x" (.fail "io error") zeroSeed
          zeroSeed).result = .error "io error"
       ∧ "x" ∈ (beginAbs (fun (n : Nat) _ => n) 0 [] "x" (.fail "io error") zeroSeed
          zeroSeed).active
       ∧ ∀ act : List String, "x" ∈ act → lockGuard act "x" = false) :=
  ⟨by decide,
   begin_fetch_error_leaks_lock (fun n _ => n) 0 [] "x" "io error" zeroSeed zeroSeed
     (by decide)⟩

end SessionSpec
